import Mathlib

/-!
Verification of the interview scheduling and conflict-avoidance logic of the
CortexHR applicant-tracking application.

The definitions below are a shallow embedding of:
  * the client-side slot grid, conflict checker, first-available selector and
    auto-select effect of `src/components/AIEmailDialog.tsx`;
  * the `schedule-interview` edge function of
    `supabase/functions/auto-process-application/index.ts`;
  * the `google-calendar` edge function (connection check / free-busy);
  * the `interviews` table constraints of migration
    `20251223103954_a4fe8ae8-f891-4b63-af1e-d05edd876d28.sql`.

Timestamps are modelled as integers (minutes); JavaScript `Date` comparisons
(`isBefore`, `isAfter`, `<`) become integer comparisons.  JavaScript `null` /
`undefined` / missing fields become `Option`, and JS falsiness of strings and
numbers (`""`, `0`) is modelled explicitly where the source relies on it
(`x || default`).
-/

namespace CortexHR

/-- A busy interval reported by the calendar free/busy query
(`{start, end}` in the source; `end` is a Lean keyword, embedded as `stop`). -/
structure BusyInterval where
  start : Int
  stop : Int
deriving Repr, DecidableEq

/-- Split a character list at every occurrence of `c` (the character-level
meaning of JavaScript `string.split(c)`). -/
def splitOnChar (c : Char) : List Char → List (List Char)
  | [] => [[]]
  | x :: xs =>
    let r := splitOnChar c xs
    if x = c then [] :: r
    else
      match r with
      | [] => [[x]]
      | y :: ys => (x :: y) :: ys

/-- Decimal digit-string parsing (the `Number(...)` conversion on an
`"HH"`/`"MM"` fragment). -/
def digitsToNat? (l : List Char) : Option Nat :=
  if l.isEmpty then none
  else l.foldl (fun acc? ch => acc?.bind fun acc =>
    if ch.isDigit then some (acc * 10 + (ch.toNat - 48)) else none) (some 0)

/-- Embeds `timeSlot.split(':').map(Number)` from `isSlotBusy`:
parse an `"HH:MM"` string into hours and minutes. -/
def parseSlot (s : String) : Nat × Nat :=
  match (splitOnChar ':' s.data).map digitsToNat? with
  | [some h, some m] => (h, m)
  | _ => (0, 0)

/-- Minutes after midnight denoted by an `"HH:MM"` slot string. -/
def slotMinutes (s : String) : Nat :=
  let p := parseSlot s
  p.1 * 60 + p.2

/-- The fixed slot grid `timeSlots` of `AIEmailDialog.tsx` (lines 495-499):
a constant list, taking no input, hence independent of date, weekday and
duration. -/
def timeSlots : List String :=
  ["09:00", "09:30", "10:00", "10:30", "11:00", "11:30",
   "12:00", "12:30", "13:00", "13:30", "14:00", "14:30",
   "15:00", "15:30", "16:00", "16:30", "17:00"]

/-- Embeds `isSlotBusy` (AIEmailDialog.tsx lines 502-516).
`selectedDate` is the midnight timestamp of the selected date (`none` when no
date is selected, matching the `!selectedDate` guard).  The slot start is
`new Date(selectedDate); setHours(h, m, 0, 0)`; the slot end adds the chosen
duration; the overlap test is
`isBefore(slotStart, busyEnd) && isAfter(slotEnd, busyStart)`. -/
def isSlotBusy (selectedDate : Option Int) (duration : Int)
    (busySlots : List BusyInterval) (timeSlot : String) : Bool :=
  if selectedDate.isNone || busySlots.isEmpty then false
  else
    let dayStart := selectedDate.getD 0
    let slotStart := dayStart + (slotMinutes timeSlot : Int)
    let slotEnd := slotStart + duration
    busySlots.any fun busy =>
      decide (slotStart < busy.stop) && decide (slotEnd > busy.start)

/-- Embeds `findFirstAvailable` (AIEmailDialog.tsx lines 519-526):
scan `timeSlots` in order, return the first slot that is not busy, else
`null`. -/
def findFirstAvailable (selectedDate : Option Int) (duration : Int)
    (busySlots : List BusyInterval) : Option String :=
  timeSlots.find? fun slot => ! isSlotBusy selectedDate duration busySlots slot

/-- Embeds the auto-select `useEffect` (AIEmailDialog.tsx lines 529-536):
given the current state, the value of `selectedTime` after the effect runs.
`selectedTime = ""` is the unset state of the text field. -/
def autoSelectTime (selectedDate : Option Int) (loadingBusy : Bool)
    (duration : Int) (busySlots : List BusyInterval)
    (selectedTime : String) : String :=
  if selectedDate.isSome && ! loadingBusy then
    match findFirstAvailable selectedDate duration busySlots with
    | some firstAvailable =>
        if selectedTime = "" then firstAvailable else selectedTime
    | none => selectedTime
  else selectedTime

/-- Slot start timestamp of a slot string on a given day. -/
def slotStartMinutes (dayStart : Int) (timeSlot : String) : Int :=
  dayStart + (slotMinutes timeSlot : Int)

end CortexHR

namespace CortexHR

theorem isSlotBusy_some_iff (dayStart duration : Int)
    (busySlots : List BusyInterval) (timeSlot : String) :
    isSlotBusy (some dayStart) duration busySlots timeSlot = true ↔
      ∃ b ∈ busySlots, slotStartMinutes dayStart timeSlot < b.stop ∧
        slotStartMinutes dayStart timeSlot + duration > b.start := by
  unfold isSlotBusy slotStartMinutes
  cases busySlots with
  | nil => simp
  | cons b bs =>
      simp [List.any_eq_true]

/-- C1: the conflict check flags a slot `[s, s+d)` busy iff some busy
interval `[b.start, b.end)` satisfies `s < b.end ∧ s + d > b.start`; a slot
ending exactly at a busy interval's start, or starting exactly at its end,
is classified free. -/
theorem conflict_check_halfopen_overlap (dayStart duration : Int)
    (busySlots : List BusyInterval) (timeSlot : String)
    (hd : 0 < duration) :
    (isSlotBusy (some dayStart) duration busySlots timeSlot = true ↔
      ∃ b ∈ busySlots, slotStartMinutes dayStart timeSlot < b.stop ∧
        slotStartMinutes dayStart timeSlot + duration > b.start) ∧
    (∀ b : BusyInterval,
      slotStartMinutes dayStart timeSlot + duration = b.start ∨
      slotStartMinutes dayStart timeSlot = b.stop →
      isSlotBusy (some dayStart) duration [b] timeSlot = false) := by
  refine ⟨isSlotBusy_some_iff dayStart duration busySlots timeSlot, ?_⟩
  intro b hb
  rw [← Bool.not_eq_true]
  intro hbusy
  rcases (isSlotBusy_some_iff dayStart duration [b] timeSlot).1 hbusy with
    ⟨b', hb', hlt, hgt⟩
  simp only [List.mem_singleton] at hb'
  subst hb'
  rcases hb with h | h
  · omega
  · omega

/-- C1 witness. -/
theorem conflict_check_halfopen_overlap_witness :
    (0 : Int) < 60 ∧
    ((isSlotBusy (some 0) 60 [⟨600, 660⟩] "10:30" = true ↔
      ∃ b ∈ [(⟨600, 660⟩ : BusyInterval)],
        slotStartMinutes 0 "10:30" < b.stop ∧
        slotStartMinutes 0 "10:30" + 60 > b.start) ∧
    (∀ b : BusyInterval,
      slotStartMinutes 0 "10:30" + 60 = b.start ∨
      slotStartMinutes 0 "10:30" = b.stop →
      isSlotBusy (some 0) 60 [b] "10:30" = false)) :=
  ⟨by norm_num, conflict_check_halfopen_overlap 0 60 [⟨600, 660⟩] "10:30" (by norm_num)⟩

/-- C9: the slot grid is exactly 17 values, "09:00" first, "17:00" last,
strictly increasing at 30-minute steps.  `timeSlots` is a closed constant
taking no input, so the sequence cannot vary with date, weekday or
duration. -/
theorem slot_grid_fixed :
    timeSlots.length = 17 ∧
    timeSlots.head? = some "09:00" ∧
    timeSlots.getLast? = some "17:00" ∧
    timeSlots.map slotMinutes =
      [540, 570, 600, 630, 660, 690, 720, 750, 780, 810,
       840, 870, 900, 930, 960, 990, 1020] ∧
    (∀ i : Fin 16, (timeSlots.map slotMinutes).getD (i.val + 1) 0 =
      (timeSlots.map slotMinutes).getD i.val 0 + 30) ∧
    List.Pairwise (fun a b => slotMinutes a < slotMinutes b) timeSlots := by
  decide

/-- Every slot of the grid lies between 09:00 (540 min) and 17:00
(1020 min) inclusive. -/
theorem slot_bounds : ∀ t ∈ timeSlots,
    540 ≤ slotMinutes t ∧ slotMinutes t ≤ 1020 := by
  decide

/-- The grid is strictly increasing in start time. -/
theorem slot_grid_sorted :
    List.Pairwise (fun a b => slotMinutes a < slotMinutes b) timeSlots := by
  decide

/-- `find?` characterization: a hit is the first element satisfying the
predicate — everything strictly before it in the list fails the predicate. -/
theorem find?_first_split {α : Type} (p : α → Bool) (l : List α) (a : α)
    (h : l.find? p = some a) :
    p a = true ∧ ∃ l1 l2, l = l1 ++ a :: l2 ∧ ∀ x ∈ l1, p x = false := by
  induction l with
  | nil => simp [List.find?] at h
  | cons x xs ih =>
      rw [List.find?] at h
      by_cases hx : p x = true
      · rw [hx] at h
        simp only [Option.some.injEq] at h
        subst h
        exact ⟨hx, [], xs, rfl, by simp⟩
      · rw [Bool.not_eq_true] at hx
        rw [hx] at h
        rcases ih h with ⟨hpa, l1, l2, hsplit, hall⟩
        refine ⟨hpa, x :: l1, l2, by rw [hsplit]; simp, ?_⟩
        intro y hy
        rcases List.mem_cons.1 hy with rfl | hy'
        · exact hx
        · exact hall y hy'

/-- C2: the first-available selector scans the grid in chronological order
and returns the earliest slot not classified busy; it returns `none` exactly
when every slot is busy; for an empty busy set it returns "09:00"; and for a
single busy interval covering the whole business day it returns `none`. -/
theorem first_available_earliest_free (dayStart duration : Int)
    (busySlots : List BusyInterval) (hd : 0 < duration) :
    (∀ s, findFirstAvailable (some dayStart) duration busySlots = some s →
        s ∈ timeSlots ∧
        isSlotBusy (some dayStart) duration busySlots s = false ∧
        ∀ t ∈ timeSlots, slotMinutes t < slotMinutes s →
          isSlotBusy (some dayStart) duration busySlots t = true) ∧
    (findFirstAvailable (some dayStart) duration busySlots = none ↔
      ∀ t ∈ timeSlots, isSlotBusy (some dayStart) duration busySlots t = true) ∧
    findFirstAvailable (some dayStart) duration ([] : List BusyInterval) =
      some "09:00" ∧
    (∀ b : BusyInterval, b.start ≤ dayStart + 540 → dayStart + 1020 < b.stop →
      findFirstAvailable (some dayStart) duration [b] = none) := by
  refine ⟨?_, ?_, ?_, ?_⟩
  · intro s hs
    have hmem := List.mem_of_find?_eq_some hs
    have hp := List.find?_some hs
    rw [Bool.not_eq_true'] at hp
    refine ⟨hmem, hp, ?_⟩
    rcases find?_first_split _ _ _ hs with ⟨-, l1, l2, hsplit, hall⟩
    intro t ht hlt
    have hsorted := slot_grid_sorted
    rw [hsplit] at ht hsorted
    rcases List.mem_append.1 ht with h1 | h2
    · have := hall t h1
      rwa [Bool.not_eq_false'] at this
    · rcases List.mem_cons.1 h2 with rfl | h2'
      · omega
      · rcases List.pairwise_append.1 hsorted with ⟨-, hp2, -⟩
        rcases List.pairwise_cons.1 hp2 with ⟨hs2, -⟩
        have := hs2 t h2'
        omega
  · rw [findFirstAvailable, List.find?_eq_none]
    constructor
    · intro h t ht
      have := h t ht
      rw [Bool.not_eq_true, Bool.not_eq_false'] at this
      exact this
    · intro h t ht
      rw [Bool.not_eq_true, Bool.not_eq_false']
      exact h t ht
  · rw [findFirstAvailable]
    have : isSlotBusy (some dayStart) duration [] "09:00" = false := by
      rw [isSlotBusy]
      simp
    rw [timeSlots, List.find?]
    rw [this]
    rfl
  · intro b hb1 hb2
    rw [findFirstAvailable, List.find?_eq_none]
    intro t ht
    rw [Bool.not_eq_true, Bool.not_eq_false']
    rcases slot_bounds t ht with ⟨hlo, hhi⟩
    rw [isSlotBusy_some_iff]
    exact ⟨b, List.mem_singleton.2 rfl, by
      rw [slotStartMinutes]; omega, by rw [slotStartMinutes]; omega⟩

/-- C2 witness. -/
theorem first_available_earliest_free_witness :
    (0 : Int) < 60 ∧
    findFirstAvailable (some 0) 60 ([] : List BusyInterval) = some "09:00" :=
  ⟨by norm_num, (first_available_earliest_free 0 60 [] (by norm_num)).2.2.1⟩

/-- C6 counterexample: before the free/busy query has returned, `busySlots`
still holds its initial value `[]`, and `findFirstAvailable` on that state
returns the first grid slot `"09:00"` — not `none` as the claim states.
(The time field nevertheless stays unset because the auto-select effect is
guarded by `loadingBusy`, not because the selector returns `none`.) -/
theorem first_available_pending_counterexample :
    findFirstAvailable (some 0) 60 ([] : List BusyInterval) = some "09:00" ∧
    findFirstAvailable (some 0) 60 ([] : List BusyInterval) ≠ none := by
  constructor
  · rw [findFirstAvailable, timeSlots, List.find?]
    have : isSlotBusy (some 0) 60 [] "09:00" = false := by rw [isSlotBusy]; simp
    rw [this]
    rfl
  · rw [findFirstAvailable, timeSlots, List.find?]
    have : isSlotBusy (some 0) 60 [] "09:00" = false := by rw [isSlotBusy]; simp
    rw [this]
    simp

/-- C6 amended: while the busy result is pending (`loadingBusy`), the
auto-select effect leaves the time field unchanged, so an unset field stays
unset (the selector itself is not consulted; invoked on the initial empty
busy set it would return `"09:00"`, not `none`); and auto-selection never
overrides a nonempty, i.e. manually selected, time. -/
theorem auto_select_guard (selectedDate : Option Int) (loadingBusy : Bool)
    (duration : Int) (busySlots : List BusyInterval) (selectedTime : String) :
    (loadingBusy = true →
      autoSelectTime selectedDate loadingBusy duration busySlots selectedTime
        = selectedTime) ∧
    (selectedTime ≠ "" →
      autoSelectTime selectedDate loadingBusy duration busySlots selectedTime
        = selectedTime) := by
  constructor
  · intro h
    subst h
    rw [autoSelectTime]
    simp
  · intro h
    rw [autoSelectTime]
    split
    · split
      · simp [h]
      · rfl
    · rfl

/-- C6 amended witness. -/
theorem auto_select_guard_witness :
    autoSelectTime (some 0) true 60 [] "" = "" ∧
    autoSelectTime (some 0) false 60 [] "10:00" = "10:00" :=
  ⟨(auto_select_guard (some 0) true 60 [] "").1 rfl,
   (auto_select_guard (some 0) false 60 [] "10:00").2 (by simp)⟩

/-! ## The `schedule-interview` edge function and the client mutation -/

/-- JavaScript `x || null` on an optional string (`""` is falsy). -/
def jsOrNull (v : Option String) : Option String :=
  match v with
  | some s => if s = "" then none else some s
  | none => none

/-- JavaScript `x || d` on an optional number (`0` is falsy):
embeds `durationMinutes || 60`. -/
def jsOrNum (v : Option Int) (dflt : Int) : Int :=
  match v with
  | some n => if n = 0 then dflt else n
  | none => dflt

/-- JavaScript `x || d` on an optional string:
embeds `interviewType || 'Technical'`. -/
def jsOrStr (v : Option String) (dflt : String) : String :=
  match v with
  | some s => if s = "" then dflt else s
  | none => dflt

/-- JavaScript truthiness of an optional string (`!x` fails when the value
is present and nonempty). -/
def truthyStr (v : Option String) : Bool :=
  match v with
  | some s => ! (s == "")
  | none => false

/-- Body of a `schedule-interview` request (`ScheduleRequest` in
`auto-process-application/index.ts`); `Option` models missing JSON fields. -/
structure SchedReq where
  applicationId : Option String
  scheduledAt : Option String
  durationMinutes : Option Int
  interviewType : Option String
  candidateEmail : String
  candidateName : String
  jobTitle : String
  meetingUrl : Option String
  meetingId : Option String

/-- A row of the `interviews` table (migration
`20251223103954`): `id` is the `gen_random_uuid()` primary key, modelled as
a `Nat` guaranteed fresh at insertion. -/
structure InterviewRow where
  id : Nat
  application_id : String
  scheduled_at : String
  duration_minutes : Int
  interview_type : String
  meeting_url : Option String
  meeting_id : Option String
  status : String
deriving Repr, DecidableEq

/-- A row of the `applications` table (only the fields the scheduler
touches). -/
structure ApplicationRow where
  id : String
  status : String
deriving Repr, DecidableEq

/-- The persistent state the `schedule-interview` handler reads and
writes. -/
structure DB where
  interviews : List InterviewRow
  applications : List ApplicationRow
deriving Repr, DecidableEq

/-- A fresh primary key for an insert (models the `gen_random_uuid()`
column default: the generated key never collides with an existing row). -/
def freshId (l : List InterviewRow) : Nat :=
  l.foldr (fun r acc => max (r.id + 1) acc) 0

/-- The declared constraints of the `interviews` table: primary-key
uniqueness of `id` and the `application_id NOT NULL REFERENCES
applications(id)` foreign key.  The migration declares no uniqueness
constraint over `(application_id, scheduled_at)`. -/
def interviewsConstraintsOk (db : DB) (row : InterviewRow) : Bool :=
  db.interviews.all (fun r => ! (r.id == row.id)) &&
  db.applications.any (fun a => a.id == row.application_id)

/-- Outcomes of the external calls the handler makes, fixed per request:
whether the Microsoft Teams credentials are configured, the result of the
Teams meeting creation (`none` covers a failing token request, a failing
meeting request, and a thrown-and-caught exception), a transient insert
failure, and a failure of the application-status update. -/
structure SchedulerEnv where
  msConfigured : Bool
  msMeeting : Option (String × String)
  insertFailure : Option String
  updateFailure : Option String

/-- The HTTP response of the `schedule-interview` handler. -/
inductive ScheduleResponse where
  | badRequest (errorMsg : String)
  | serverError (errorMsg : String)
  | success (meetingUrl : Option String) (message : String)
deriving Repr, DecidableEq

/-- Response plus every externally observable side effect of one
`schedule-interview` call: the database afterwards and whether the email
and Slack notification functions were invoked. -/
structure ScheduleOutcome where
  response : ScheduleResponse
  db : DB
  emailSent : Bool
  slackSent : Bool
deriving Repr, DecidableEq

/-- The meeting link/id pair the handler ends up with
(`let meetingUrl = providedMeetingUrl || null; ...` plus the best-effort
Microsoft Teams branch, which runs only when no link was provided and the
MS credentials are configured; any Teams failure leaves the pair
unchanged). -/
def schedMeeting (req : SchedReq) (env : SchedulerEnv) :
    Option String × Option String :=
  let meetingUrl0 := jsOrNull req.meetingUrl
  let meetingId0 := jsOrNull req.meetingId
  if meetingUrl0.isNone && env.msConfigured then
    match env.msMeeting with
    | some (url, mid) => (some url, some mid)
    | none => (meetingUrl0, meetingId0)
  else (meetingUrl0, meetingId0)

/-- The row the handler passes to `.from('interviews').insert(...)`:
`duration_minutes: durationMinutes || 60`,
`interview_type: interviewType || 'Technical'`, `status: 'scheduled'`;
`id` is filled in by the column default. -/
def schedRow (req : SchedReq) (env : SchedulerEnv) (db : DB) : InterviewRow :=
  { id := freshId db.interviews,
    application_id := req.applicationId.getD "",
    scheduled_at := req.scheduledAt.getD "",
    duration_minutes := jsOrNum req.durationMinutes 60,
    interview_type := jsOrStr req.interviewType "Technical",
    meeting_url := (schedMeeting req env).1,
    meeting_id := (schedMeeting req env).2,
    status := "scheduled" }

/-- Embeds the `schedule-interview` `serve` handler
(`auto-process-application/index.ts` lines 313-580): validation of
`applicationId`/`scheduledAt`, best-effort Teams meeting creation when no
meeting link was provided, the `interviews` insert (fatal on failure:
`throw interviewError` lands in the catch block returning a 500), the
logged-only application-status update, the caught-and-logged email and
Slack invocations, and the success response. -/
def scheduleInterviewHandler (req : SchedReq) (env : SchedulerEnv)
    (db : DB) : ScheduleOutcome :=
  if ! truthyStr req.applicationId || ! truthyStr req.scheduledAt then
    { response := .badRequest "Application ID and scheduled time are required",
      db := db, emailSent := false, slackSent := false }
  else
    let meeting := schedMeeting req env
    match env.insertFailure with
    | some err =>
        { response := .serverError err, db := db,
          emailSent := false, slackSent := false }
    | none =>
        let row := schedRow req env db
        if interviewsConstraintsOk db row then
          let db1 : DB := { db with interviews := db.interviews ++ [row] }
          let db2 : DB :=
            if env.updateFailure.isNone then
              { db1 with applications := db1.applications.map fun a =>
                  if a.id == row.application_id then
                    { a with status := "interview" }
                  else a }
            else db1
          { response := .success meeting.1
              (if meeting.1.isSome then
                "Interview scheduled with video meeting link"
               else "Interview scheduled (add meeting link manually)"),
            db := db2, emailSent := true, slackSent := true }
        else
          { response := .serverError "insert violates a table constraint",
            db := db, emailSent := false, slackSent := false }

/-- State of the scheduling dialog form; `""` / `none` are the unset
states. `duration` is `parseInt(duration)` of the duration select. -/
structure FormState where
  selectedApplication : String
  selectedDate : Option Int
  selectedTime : String
  duration : Int
  interviewType : String

/-- An application row as the dialog query shapes it. -/
structure ClientApp where
  id : String
  candidateName : String
  candidateEmail : String
  jobTitle : String

/-- Body the client sends to `schedule-interview` (the fields the claims
are about). -/
structure SchedulePayload where
  applicationId : String
  scheduledAtMinutes : Int
  durationMinutes : Int
  interviewType : String
  meetingUrl : Option String
  meetingId : Option String
deriving Repr, DecidableEq

/-- Embeds the client `scheduleInterview` mutation function
(`AIEmailDialog.tsx` lines 574-630): validation throws before any remote
call; the Google Calendar `create-event` call is attempted only when
connected and opted in, its failure (`calendarResult = none`, covering both
an error result and a thrown-and-caught exception) leaves
`meetingUrl = null`; then `schedule-interview` is invoked.  Returns the
mutation result together with whether the calendar call was issued
(`Except.error` means `schedule-interview` was never invoked). -/
def clientScheduleInterview (st : FormState) (apps : List ClientApp)
    (calendarConnected createMeetLink : Bool)
    (calendarResult : Option (Option String × Option String)) :
    Except String SchedulePayload × Bool :=
  if st.selectedApplication = "" || st.selectedDate.isNone ||
      st.selectedTime = "" then
    (.error "Please select a candidate, date and time", false)
  else
    match apps.find? fun a => a.id == st.selectedApplication with
    | none => (.error "Application not found", false)
    | some _app =>
      let scheduledAt := st.selectedDate.getD 0 +
        (slotMinutes st.selectedTime : Int)
      let calInvoked := calendarConnected && createMeetLink
      let meeting :=
        if calInvoked then
          match calendarResult with
          | some (link, eid) => (link, eid)
          | none => (none, none)
        else (none, none)
      (.ok { applicationId := st.selectedApplication,
             scheduledAtMinutes := scheduledAt,
             durationMinutes := st.duration,
             interviewType := st.interviewType,
             meetingUrl := meeting.1,
             meetingId := meeting.2 }, calInvoked)

theorem id_lt_freshId {l : List InterviewRow} {r : InterviewRow}
    (h : r ∈ l) : r.id < freshId l := by
  induction l with
  | nil => cases h
  | cons x xs ih =>
      rcases List.mem_cons.1 h with rfl | hx
      · exact lt_of_lt_of_le (Nat.lt_succ_self _) (le_max_left _ _)
      · exact lt_of_lt_of_le (ih hx) (le_max_right _ _)

theorem schedRow_constraints_ok (req : SchedReq) (env : SchedulerEnv)
    (db : DB)
    (happ : db.applications.any
      (fun a => a.id == req.applicationId.getD "") = true) :
    interviewsConstraintsOk db (schedRow req env db) = true := by
  rw [interviewsConstraintsOk, Bool.and_eq_true]
  refine ⟨?_, happ⟩
  rw [List.all_eq_true]
  intro r hr
  have hlt := id_lt_freshId hr
  simp only [schedRow, Bool.not_eq_true', beq_eq_false_iff_ne, ne_eq]
  omega

/-- Shape of the handler outcome on the success path: validation passed,
the insert succeeded, so `schedRow` was appended, the application status
was updated (unless that best-effort update failed), both notifications
were dispatched, and a success response carries the computed meeting
link. -/
theorem handler_success_eq (req : SchedReq) (env : SchedulerEnv) (db : DB)
    (hval1 : truthyStr req.applicationId = true)
    (hval2 : truthyStr req.scheduledAt = true)
    (hins : env.insertFailure = none)
    (hok : interviewsConstraintsOk db (schedRow req env db) = true) :
    scheduleInterviewHandler req env db =
      { response := .success (schedMeeting req env).1
          (if (schedMeeting req env).1.isSome then
            "Interview scheduled with video meeting link"
           else "Interview scheduled (add meeting link manually)"),
        db := { interviews := db.interviews ++ [schedRow req env db],
                applications :=
                  if env.updateFailure.isNone then
                    db.applications.map fun a =>
                      if a.id == (schedRow req env db).application_id then
                        { a with status := "interview" }
                      else a
                  else db.applications },
        emailSent := true, slackSent := true } := by
  rw [scheduleInterviewHandler, hval1, hval2, hins]
  simp only [Bool.not_true, Bool.or_self, Bool.false_eq_true, if_false]
  rw [hok]
  simp only [if_true, ScheduleOutcome.mk.injEq, Option.isNone_iff_eq_none]
  refine ⟨trivial, ?_, trivial, trivial⟩
  split <;> rfl

/-- C3: when the `interviews` insert fails, the handler returns the fatal
500 response, the database is untouched (in particular no application
status update), and neither the email nor the Slack notification is
dispatched. -/
theorem persistence_failure_fatal (req : SchedReq) (env : SchedulerEnv)
    (db : DB) (err : String)
    (hval1 : truthyStr req.applicationId = true)
    (hval2 : truthyStr req.scheduledAt = true)
    (hfail : env.insertFailure = some err) :
    scheduleInterviewHandler req env db =
      { response := .serverError err, db := db,
        emailSent := false, slackSent := false } := by
  rw [scheduleInterviewHandler, hval1, hval2, hfail]
  simp

/-- C8: a missing selection makes the client mutation throw its validation
error before any remote call (no calendar call, and since the result is an
error, the `schedule-interview` function is never invoked, so no
persistence, status update or notification); on the server, a missing
`applicationId` or `scheduledAt` yields the 400 response with the database
untouched and no notification dispatched. -/
theorem validation_error_no_side_effects :
    (∀ (st : FormState) (apps : List ClientApp) (cc cml : Bool)
        (cr : Option (Option String × Option String)),
      st.selectedApplication = "" ∨ st.selectedDate = none ∨
        st.selectedTime = "" →
      clientScheduleInterview st apps cc cml cr =
        (.error "Please select a candidate, date and time", false)) ∧
    (∀ (req : SchedReq) (env : SchedulerEnv) (db : DB),
      truthyStr req.applicationId = false ∨
        truthyStr req.scheduledAt = false →
      scheduleInterviewHandler req env db =
        { response :=
            .badRequest "Application ID and scheduled time are required",
          db := db, emailSent := false, slackSent := false }) := by
  constructor
  · intro st apps cc cml cr h
    unfold clientScheduleInterview
    rcases h with h | h | h <;> simp [h]
  · intro req env db h
    rw [scheduleInterviewHandler]
    rcases h with h | h <;> rw [h] <;> simp

/-- C8 witness. -/
theorem validation_error_no_side_effects_witness :
    ((⟨"", some 0, "10:00", 60, "Technical"⟩ : FormState).selectedApplication
        = "" ∨
      (⟨"", some 0, "10:00", 60, "Technical"⟩ : FormState).selectedDate
        = none ∨
      (⟨"", some 0, "10:00", 60, "Technical"⟩ : FormState).selectedTime
        = "") ∧
    clientScheduleInterview ⟨"", some 0, "10:00", 60, "Technical"⟩ [] true
        true none =
      (.error "Please select a candidate, date and time", false) ∧
    (truthyStr (⟨none, some "2026-01-05", none, none, "c@x.io", "C", "Dev",
        none, none⟩ : SchedReq).applicationId = false ∨
      truthyStr (⟨none, some "2026-01-05", none, none, "c@x.io", "C", "Dev",
        none, none⟩ : SchedReq).scheduledAt = false) ∧
    scheduleInterviewHandler
        ⟨none, some "2026-01-05", none, none, "c@x.io", "C", "Dev",
          none, none⟩
        ⟨false, none, none, none⟩ ⟨[], []⟩ =
      { response :=
          .badRequest "Application ID and scheduled time are required",
        db := ⟨[], []⟩, emailSent := false, slackSent := false } :=
  ⟨Or.inl rfl,
   validation_error_no_side_effects.1 _ [] true true none (Or.inl rfl),
   Or.inl rfl,
   validation_error_no_side_effects.2 _ _ _ (Or.inl rfl)⟩

/-- C4: a failing meeting-creation call never aborts the flow.  On the
client, with the calendar connected and the Meet option on, a failed
`create-event` call (`calendarResult = none`) still produces a successful
mutation payload with `meetingUrl = null`; on the server, with no provided
link and a failing Teams call, the interview row is persisted with
`meeting_url = null` and the response is the success response. -/
theorem meeting_failure_still_schedules :
    (∀ (st : FormState) (apps : List ClientApp) (app : ClientApp),
      st.selectedApplication ≠ "" → st.selectedDate.isSome = true →
      st.selectedTime ≠ "" →
      apps.find? (fun a => a.id == st.selectedApplication) = some app →
      ∃ p : SchedulePayload,
        clientScheduleInterview st apps true true none = (.ok p, true) ∧
        p.meetingUrl = none) ∧
    (∀ (req : SchedReq) (env : SchedulerEnv) (db : DB),
      truthyStr req.applicationId = true →
      truthyStr req.scheduledAt = true →
      jsOrNull req.meetingUrl = none → env.msMeeting = none →
      env.insertFailure = none →
      db.applications.any
        (fun a => a.id == req.applicationId.getD "") = true →
      ∃ row : InterviewRow,
        (scheduleInterviewHandler req env db).db.interviews
          = db.interviews ++ [row] ∧
        row.meeting_url = none ∧
        (scheduleInterviewHandler req env db).response =
          .success none "Interview scheduled (add meeting link manually)") := by
  constructor
  · intro st apps app h1 h2 h3 hfind
    rcases Option.isSome_iff_exists.1 h2 with ⟨d, hd⟩
    refine ⟨{ applicationId := st.selectedApplication,
              scheduledAtMinutes := d + (slotMinutes st.selectedTime : Int),
              durationMinutes := st.duration,
              interviewType := st.interviewType,
              meetingUrl := none, meetingId := none }, ?_, rfl⟩
    unfold clientScheduleInterview
    simp [h1, h3, hd, hfind]
  · intro req env db hval1 hval2 hurl hms hins happ
    have hmeet : (schedMeeting req env).1 = none := by
      rw [schedMeeting]
      cases env.msConfigured <;> simp [hurl, hms]
    have hok := schedRow_constraints_ok req env db happ
    rw [handler_success_eq req env db hval1 hval2 hins hok]
    refine ⟨schedRow req env db, rfl, ?_, ?_⟩
    · show (schedMeeting req env).1 = none
      exact hmeet
    · simp [hmeet]

/-- C4 witness. -/
theorem meeting_failure_still_schedules_witness :
    (∃ p : SchedulePayload,
      clientScheduleInterview ⟨"a1", some 0, "10:00", 60, "Technical"⟩
          [⟨"a1", "C", "c@x.io", "Dev"⟩] true true none = (.ok p, true) ∧
      p.meetingUrl = none) ∧
    (∃ row : InterviewRow,
      (scheduleInterviewHandler
        ⟨some "a1", some "2026-01-05T10:00", none, none, "c@x.io", "C",
          "Dev", none, none⟩
        ⟨true, none, none, none⟩
        ⟨[], [⟨"a1", "screening"⟩]⟩).db.interviews
          = [] ++ [row] ∧
      row.meeting_url = none ∧
      (scheduleInterviewHandler
        ⟨some "a1", some "2026-01-05T10:00", none, none, "c@x.io", "C",
          "Dev", none, none⟩
        ⟨true, none, none, none⟩
        ⟨[], [⟨"a1", "screening"⟩]⟩).response =
        .success none "Interview scheduled (add meeting link manually)") :=
  ⟨meeting_failure_still_schedules.1 _ _ _ (by decide) rfl (by decide) rfl,
   meeting_failure_still_schedules.2 _ _ _ (by decide) (by decide) rfl rfl
     rfl (by decide)⟩

/-- C10: `durationMinutes` or `interviewType` missing (or JS-falsy: `0`,
`""`) is not rejected; the row is persisted with the substituted defaults
`duration_minutes = 60` and `interview_type = 'Technical'`, and the request
succeeds. -/
theorem omitted_fields_defaulted (req : SchedReq) (env : SchedulerEnv)
    (db : DB)
    (hval1 : truthyStr req.applicationId = true)
    (hval2 : truthyStr req.scheduledAt = true)
    (hdur : req.durationMinutes = none ∨ req.durationMinutes = some 0)
    (htype : req.interviewType = none ∨ req.interviewType = some "")
    (hins : env.insertFailure = none)
    (happ : db.applications.any
      (fun a => a.id == req.applicationId.getD "") = true) :
    ∃ row : InterviewRow,
      (scheduleInterviewHandler req env db).db.interviews
        = db.interviews ++ [row] ∧
      row.duration_minutes = 60 ∧
      row.interview_type = "Technical" ∧
      ∃ u m, (scheduleInterviewHandler req env db).response =
        .success u m := by
  have hok := schedRow_constraints_ok req env db happ
  rw [handler_success_eq req env db hval1 hval2 hins hok]
  refine ⟨schedRow req env db, rfl, ?_, ?_, ⟨_, _, rfl⟩⟩
  · rcases hdur with h | h <;> simp [schedRow, jsOrNum, h]
  · rcases htype with h | h <;> simp [schedRow, jsOrStr, h]

/-- C10 witness. -/
theorem omitted_fields_defaulted_witness :
    ∃ row : InterviewRow,
      (scheduleInterviewHandler
        ⟨some "a1", some "2026-01-05T10:00", none, none, "c@x.io", "C",
          "Dev", none, none⟩
        ⟨false, none, none, none⟩
        ⟨[], [⟨"a1", "screening"⟩]⟩).db.interviews = [] ++ [row] ∧
      row.duration_minutes = 60 ∧
      row.interview_type = "Technical" ∧
      ∃ u m, (scheduleInterviewHandler
        ⟨some "a1", some "2026-01-05T10:00", none, none, "c@x.io", "C",
          "Dev", none, none⟩
        ⟨false, none, none, none⟩
        ⟨[], [⟨"a1", "screening"⟩]⟩).response = .success u m :=
  omitted_fields_defaulted _ _ _ (by decide) (by decide) (Or.inl rfl)
    (Or.inl rfl) rfl (by decide)

theorem any_id_map_update (l : List ApplicationRow) (x appId : String) :
    (l.map fun a =>
        if a.id == appId then { a with status := "interview" } else a).any
      (fun a => a.id == x) = l.any (fun a => a.id == x) := by
  induction l with
  | nil => rfl
  | cons a as ih =>
      simp only [List.map_cons, List.any_cons, ih]
      by_cases hcase : a.id = appId
      · simp [hcase]
      · simp [hcase]

/-- C7: two calls with the same `applicationId` and `scheduledAt` both
succeed and leave two distinct interview rows (distinct primary keys,
identical application and time): the handler deduplicates nothing and the
migration declares no uniqueness constraint on
`(application_id, scheduled_at)`. -/
theorem double_schedule_two_records (req : SchedReq) (env : SchedulerEnv)
    (db : DB)
    (hval1 : truthyStr req.applicationId = true)
    (hval2 : truthyStr req.scheduledAt = true)
    (hins : env.insertFailure = none)
    (happ : db.applications.any
      (fun a => a.id == req.applicationId.getD "") = true) :
    ∃ r1 r2 : InterviewRow,
      (scheduleInterviewHandler req env db).db.interviews
        = db.interviews ++ [r1] ∧
      (scheduleInterviewHandler req env
          (scheduleInterviewHandler req env db).db).db.interviews
        = db.interviews ++ [r1, r2] ∧
      r1.id ≠ r2.id ∧
      r1.application_id = r2.application_id ∧
      r1.scheduled_at = r2.scheduled_at ∧
      (∃ u m, (scheduleInterviewHandler req env db).response =
        .success u m) ∧
      (∃ u m, (scheduleInterviewHandler req env
          (scheduleInterviewHandler req env db).db).response =
        .success u m) := by
  have hok1 := schedRow_constraints_ok req env db happ
  have h1 := handler_success_eq req env db hval1 hval2 hins hok1
  have happ1 : (scheduleInterviewHandler req env db).db.applications.any
      (fun a => a.id == req.applicationId.getD "") = true := by
    rw [h1]
    show (if env.updateFailure.isNone then _ else db.applications).any _
      = true
    split
    · rw [show (schedRow req env db).application_id
        = req.applicationId.getD "" from rfl]
      rw [any_id_map_update]
      exact happ
    · exact happ
  have hok2 := schedRow_constraints_ok req env
    (scheduleInterviewHandler req env db).db happ1
  have h2 := handler_success_eq req env
    (scheduleInterviewHandler req env db).db hval1 hval2 hins hok2
  refine ⟨schedRow req env db,
    schedRow req env (scheduleInterviewHandler req env db).db,
    by rw [h1], ?_, ?_, rfl, rfl, ⟨_, _, by rw [h1]⟩, ⟨_, _, by rw [h2]⟩⟩
  · rw [h2]
    show (scheduleInterviewHandler req env db).db.interviews ++ _ = _
    rw [h1]
    simp
  · have hmem : schedRow req env db
        ∈ (scheduleInterviewHandler req env db).db.interviews := by
      rw [h1]
      simp
    have hlt := id_lt_freshId hmem
    have : (schedRow req env
        (scheduleInterviewHandler req env db).db).id
        = freshId (scheduleInterviewHandler req env db).db.interviews := rfl
    omega

/-- C7 witness. -/
theorem double_schedule_two_records_witness :
    ∃ r1 r2 : InterviewRow,
      (scheduleInterviewHandler
        ⟨some "a1", some "2026-01-05T10:00", some 60, some "Technical",
          "c@x.io", "C", "Dev", none, none⟩
        ⟨false, none, none, none⟩
        ⟨[], [⟨"a1", "screening"⟩]⟩).db.interviews = [] ++ [r1] ∧
      (scheduleInterviewHandler
        ⟨some "a1", some "2026-01-05T10:00", some 60, some "Technical",
          "c@x.io", "C", "Dev", none, none⟩
        ⟨false, none, none, none⟩
        (scheduleInterviewHandler
          ⟨some "a1", some "2026-01-05T10:00", some 60, some "Technical",
            "c@x.io", "C", "Dev", none, none⟩
          ⟨false, none, none, none⟩
          ⟨[], [⟨"a1", "screening"⟩]⟩).db).db.interviews
        = [] ++ [r1, r2] ∧
      r1.id ≠ r2.id ∧
      r1.application_id = r2.application_id ∧
      r1.scheduled_at = r2.scheduled_at ∧
      (∃ u m, (scheduleInterviewHandler
        ⟨some "a1", some "2026-01-05T10:00", some 60, some "Technical",
          "c@x.io", "C", "Dev", none, none⟩
        ⟨false, none, none, none⟩
        ⟨[], [⟨"a1", "screening"⟩]⟩).response = .success u m) ∧
      (∃ u m, (scheduleInterviewHandler
        ⟨some "a1", some "2026-01-05T10:00", some 60, some "Technical",
          "c@x.io", "C", "Dev", none, none⟩
        ⟨false, none, none, none⟩
        (scheduleInterviewHandler
          ⟨some "a1", some "2026-01-05T10:00", some 60, some "Technical",
            "c@x.io", "C", "Dev", none, none⟩
          ⟨false, none, none, none⟩
          ⟨[], [⟨"a1", "screening"⟩]⟩).db).response = .success u m) :=
  double_schedule_two_records _ _ _ (by decide) (by decide) rfl (by decide)

/-- C3 witness. -/
theorem persistence_failure_fatal_witness :
    truthyStr (some "a1") = true ∧
    truthyStr (some "2026-01-05T10:00") = true ∧
    scheduleInterviewHandler
        ⟨some "a1", some "2026-01-05T10:00", some 60, some "Technical",
          "c@x.io", "C", "Dev", none, none⟩
        ⟨false, none, some "db down", none⟩
        ⟨[], [⟨"a1", "screening"⟩]⟩ =
      { response := .serverError "db down",
        db := ⟨[], [⟨"a1", "screening"⟩]⟩,
        emailSent := false, slackSent := false } :=
  ⟨by decide, by decide,
   persistence_failure_fatal _ _ _ "db down" (by decide) (by decide) rfl⟩

/-! ## The `google-calendar` edge function and the client availability
oracle -/

/-- HTTP responses of the `google-calendar` handler the claims are about:
the 200 `check-connection` body `{connected, configured}`, the 200
`get-free-busy` body `{busySlots}`, and the error responses with their
status codes. -/
inductive CalendarResponse where
  | connection (connected configured : Bool)
  | busy (busySlots : List BusyInterval)
  | calError (errorMsg : String) (status : Nat)
deriving Repr, DecidableEq

/-- External facts a `google-calendar` request runs against: whether the
JWT resolves to a user, whether an `hr_google_tokens` row exists for them,
whether the OAuth client is configured, whether the stored token is
expired, whether the refresh succeeds, and the free/busy upstream result
(`none` = upstream failure). -/
structure CalendarEnv where
  userOk : Bool
  tokenPresent : Bool
  configured : Bool
  expired : Bool
  refreshOk : Bool
  freeBusy : Option (List BusyInterval)

/-- Embeds the `google-calendar` `serve` handler (lines 984-1213 of the
edge-function source): auth check, then `check-connection` answers 200
with `connected: !!tokenData` before any token validity check; other
actions require a stored token (`NOT_CONNECTED` 400 otherwise), refresh an
expired token (400/500 errors on failure), and `get-free-busy` forwards
the upstream busy intervals or a 500.  `create-event` is abstracted by the
client-side `calendarResult` parameter of `clientScheduleInterview` and is
not needed by any claim. -/
def googleCalendarHandler (action : String) (env : CalendarEnv) :
    CalendarResponse :=
  if ! env.userOk then .calError "Invalid token" 401
  else if action = "check-connection" then
    .connection env.tokenPresent env.configured
  else if ! env.tokenPresent then
    .calError "Google Calendar not connected" 400
  else if env.expired && ! env.configured then
    .calError "OAuth not configured" 500
  else if env.expired && ! env.refreshOk then
    .calError "Token expired, please reconnect Google Calendar" 400
  else if action = "get-free-busy" then
    match env.freeBusy with
    | some slots => .busy slots
    | none => .calError "Failed to get calendar availability" 500
  else .calError "Invalid action" 400

/-- Embeds the body of the client `fetchBusySlots` (AIEmailDialog.tsx
lines 468-492): `busySlots` is replaced only when the invoke returns a
body with `busySlots` and no error; error responses and thrown exceptions
are swallowed, leaving the previous (initially empty) busy set. -/
def fetchBusySlotsUpdate (prev : List BusyInterval)
    (resp : CalendarResponse) : List BusyInterval :=
  match resp with
  | .busy slots => slots
  | _ => prev

/-- Embeds the busy-fetch `useEffect` (AIEmailDialog.tsx lines 446-450):
`fetchBusySlots` runs only when a date is selected and the calendar is
connected; otherwise the busy set is left as it is. -/
def busyFetchEffect (selectedDate : Option Int) (calendarConnected : Bool)
    (prev : List BusyInterval) (resp : CalendarResponse) :
    List BusyInterval :=
  if selectedDate.isSome && calendarConnected then
    fetchBusySlotsUpdate prev resp
  else prev

/-- C5: an absent calendar credential is signalled, not failed on.
`check-connection` answers 200 `{connected: false}` (not an error);
`get-free-busy` without a credential answers the `NOT_CONNECTED`
condition; the client swallows any error response, leaving the busy set
empty; with the calendar not connected the busy fetch never runs, so the
busy set stays empty; and the scheduling mutation still succeeds with
`calendarConnected = false` — availability is not a precondition. -/
theorem availability_failopen_not_connected :
    (∀ env : CalendarEnv, env.userOk = true → env.tokenPresent = false →
      googleCalendarHandler "check-connection" env =
        .connection false env.configured) ∧
    (∀ env : CalendarEnv, env.userOk = true → env.tokenPresent = false →
      googleCalendarHandler "get-free-busy" env =
        .calError "Google Calendar not connected" 400) ∧
    (∀ (msg : String) (code : Nat),
      fetchBusySlotsUpdate [] (.calError msg code) = []) ∧
    (∀ (sd : Option Int) (resp : CalendarResponse),
      busyFetchEffect sd false [] resp = []) ∧
    (∀ (st : FormState) (apps : List ClientApp) (app : ClientApp)
        (cml : Bool) (cr : Option (Option String × Option String)),
      st.selectedApplication ≠ "" → st.selectedDate.isSome = true →
      st.selectedTime ≠ "" →
      apps.find? (fun a => a.id == st.selectedApplication) = some app →
      ∃ p : SchedulePayload,
        clientScheduleInterview st apps false cml cr = (.ok p, false)) := by
  refine ⟨?_, ?_, ?_, ?_, ?_⟩
  · intro env hu ht
    rw [googleCalendarHandler, hu, ht]
    simp
  · intro env hu ht
    rw [googleCalendarHandler, hu, ht]
    simp
  · intro msg code
    rfl
  · intro sd resp
    rw [busyFetchEffect]
    simp
  · intro st apps app cml cr h1 h2 h3 hfind
    rcases Option.isSome_iff_exists.1 h2 with ⟨d, hd⟩
    refine ⟨{ applicationId := st.selectedApplication,
              scheduledAtMinutes := d + (slotMinutes st.selectedTime : Int),
              durationMinutes := st.duration,
              interviewType := st.interviewType,
              meetingUrl := none, meetingId := none }, ?_⟩
    unfold clientScheduleInterview
    simp [h1, h3, hd, hfind]

/-- C5 witness. -/
theorem availability_failopen_not_connected_witness :
    googleCalendarHandler "check-connection"
        ⟨true, false, true, false, false, none⟩ = .connection false true ∧
    googleCalendarHandler "get-free-busy"
        ⟨true, false, true, false, false, none⟩ =
      .calError "Google Calendar not connected" 400 ∧
    fetchBusySlotsUpdate [] (.calError "Google Calendar not connected" 400)
      = [] ∧
    busyFetchEffect (some 0) false [] (.busy [⟨0, 60⟩]) = [] ∧
    (∃ p : SchedulePayload,
      clientScheduleInterview ⟨"a1", some 0, "10:00", 60, "Technical"⟩
        [⟨"a1", "C", "c@x.io", "Dev"⟩] false true none = (.ok p, false)) :=
  ⟨availability_failopen_not_connected.1 _ rfl rfl,
   availability_failopen_not_connected.2.1 _ rfl rfl,
   availability_failopen_not_connected.2.2.1 _ _,
   availability_failopen_not_connected.2.2.2.1 _ _,
   availability_failopen_not_connected.2.2.2.2 _ _ ⟨"a1", "C", "c@x.io", "Dev"⟩
     true none (by decide) rfl (by decide) rfl⟩

end CortexHR
